import Mathlib

/-!
# Verification of the okteto remote-destroy packaging flow

A shallow embedding of `cmd/destroy/remote.go`: destroy-flag derivation,
CLI-version resolution, Dockerfile template rendering, ignore-file staging,
cluster-metadata fetching and the destroy orchestration with its staged
error classification.  Definitions are translated from the Go source;
definitions for repository constants and collaborators that are not part of
the available source are marked `Modelled from the spec:` in their doc
comments.
-/

set_option autoImplicit false

namespace OktetoDestroy

/-! ## Options and destroy-flag derivation (`getDestroyFlags`) -/

/-- The destroy `Options` fields read by `getDestroyFlags`
(`cmd/destroy/remote.go`, with the flag-relevant fields of the
destroy command's options struct). -/
structure Options where
  Name : String
  Namespace : String
  ManifestPathFlag : String
  DestroyVolumes : Bool
  ForceDestroy : Bool
  deriving Repr, DecidableEq

/-- `getDestroyFlags` (`cmd/destroy/remote.go:267-291`): successively appends
one CLI flag token per non-empty/true option field. -/
def getDestroyFlags (opts : Options) : List String :=
  let deployFlags : List String := []
  let deployFlags :=
    if opts.Name ≠ "" then deployFlags ++ ["--name \"" ++ opts.Name ++ "\""] else deployFlags
  let deployFlags :=
    if opts.Namespace ≠ "" then deployFlags ++ ["--namespace " ++ opts.Namespace] else deployFlags
  let deployFlags :=
    if opts.ManifestPathFlag ≠ "" then deployFlags ++ ["--file " ++ opts.ManifestPathFlag]
    else deployFlags
  let deployFlags :=
    if opts.DestroyVolumes then deployFlags ++ ["--volumes"] else deployFlags
  let deployFlags :=
    if opts.ForceDestroy then deployFlags ++ ["--force-destroy"] else deployFlags
  deployFlags

/-- Go's `strings.Join(l, " ")`. -/
def joinSpace : List String → String
  | [] => ""
  | [x] => x
  | x :: y :: xs => x ++ " " ++ joinSpace (y :: xs)

/-! ## CLI version resolution (`getOktetoCLIVersion`) -/

/-- Go regexp `\d` (ASCII digit). -/
def isDigitChar (c : Char) : Bool := '0' ≤ c && c ≤ '9'

/-- Whether `\d+\.\d+\.\d+` matches at the start of `cs`.  For this pattern a
greedy maximal-digit-run parse is equivalent to regexp matching: a digit run
followed by `.` can only be the maximal run, since a shorter run would be
followed by a digit, not `.`. -/
def startsWithVersion (cs : List Char) : Bool :=
  match cs.takeWhile isDigitChar, cs.dropWhile isDigitChar with
  | [], _ => false
  | _ :: _, '.' :: r2 =>
    match r2.takeWhile isDigitChar, r2.dropWhile isDigitChar with
    | [], _ => false
    | _ :: _, '.' :: r4 =>
      match r4 with
      | c :: _ => isDigitChar c
      | [] => false
    | _, _ => false
  | _, _ => false

/-- Unanchored search, as `regexp.MatchString` does: the pattern may match at
any position of the subject. -/
def anySuffixVersion : List Char → Bool
  | [] => false
  | c :: cs => startsWithVersion (c :: cs) || anySuffixVersion cs

/-- `regexp.MatchString("\d+\.\d+\.\d+", s)` (`cmd/destroy/remote.go:295`). -/
def matchesThreePartVersion (s : String) : Bool :=
  anySuffixVersion s.data

/-- Modelled from the spec: the canonical image reference template
`constants.OktetoCLIImageForRemoteTemplate` (not under `src/`), formatted
with `fmt.Sprintf` at a version string. -/
def oktetoCLIImageForRemoteTemplate (version : String) : String :=
  "okteto/okteto:" ++ version

/-- `getOktetoCLIVersion` (`cmd/destroy/remote.go:293-307`).
`remoteOktetoImage` is the value of the `constants.OKtetoDeployRemoteImage`
environment variable (empty when unset). -/
def getOktetoCLIVersion (remoteOktetoImage versionString : String) : String :=
  if matchesThreePartVersion versionString then
    oktetoCLIImageForRemoteTemplate versionString
  else if remoteOktetoImage ≠ "" then
    remoteOktetoImage
  else
    oktetoCLIImageForRemoteTemplate "latest"

/-! ## Cache-invalidation nonce -/

/-- Modelled from the spec: `crypto/rand.Int(rand.Reader, big.NewInt(1000))`
draws an integer uniformly distributed in `[0, 1000)` from the secure random
source; modelled as a function of the entropy value read from the source.
Every value of `[0, 1000)` is attainable and distinct entropy values may
yield the same draw. -/
def randInt1000 (entropy : Nat) : Nat := entropy % 1000

/-! ## Go error values

Modelled from the spec and standard Go semantics: the error values flowing
through the destroy orchestration.  `errorf` is `fmt.Errorf("...: %w", err)`
(it implements `Unwrap`); `user` is `oktetoErrors.UserError` and `cmd` is
`build.OktetoCommandErr` (stage label plus cause) — both from repository
packages not under `src/`, neither of which implements `Unwrap`, so
`errors.As` traversal descends only through `errorf`. -/

inductive GoError where
  | base (msg : String)
  | errorf (prefixMsg : String) (wrapped : GoError)
  | user (e : GoError)
  | cmd (stage : String) (err : GoError)
  deriving Repr, DecidableEq

/-- The `Error()` message of a Go error value.  `errorf` renders as
`prefix: cause` (the format strings in the source end in `: %w`). -/
def errMsg : GoError → String
  | .base m => m
  | .errorf p w => p ++ ": " ++ errMsg w
  | .user e => errMsg e
  | .cmd s e => "error on stage " ++ s ++ ": " ++ errMsg e

/-- `errors.As(err, &cmdErr)` for `build.OktetoCommandErr`: the first
command error found on the unwrap chain, with its stage and cause. -/
def errorsAsCmd : GoError → Option (String × GoError)
  | .cmd s e => some (s, e)
  | .errorf _ w => errorsAsCmd w
  | .user _ => none
  | .base _ => none

/-- `errors.As(err, &userErr)` for `oktetoErrors.UserError`: the first
user error found on the unwrap chain. -/
def errorsAsUser : GoError → Option GoError
  | .user e => some (.user e)
  | .errorf _ w => errorsAsUser w
  | .cmd _ _ => none
  | .base _ => none

/-! ## Cluster metadata fetching (`fetchClusterMetadata`) -/

/-- `types.ClusterMetadata` (fields used by the destroy flow).  The
certificate is an opaque byte sequence; `none` models a `nil` slice. -/
structure ClusterMetadata where
  Certificate : Option (List Nat)
  ServerName : String
  PipelineRunnerImage : String
  PipelineInstallerImage : String
  deriving Repr, DecidableEq

/-- Modelled from the spec: the user client returned by the okteto API
client provider, with its two metadata calls (collaborators specified at
their interface boundary). -/
structure UserClient where
  getClusterMetadata : String → Except GoError ClusterMetadata
  getClusterCertificate : String → String → Except GoError (List Nat)

/-- `fetchClusterMetadata` (`cmd/destroy/remote.go:309-327`).  `provide` is
the outcome of `okteto.NewOktetoClientProvider().Provide()`; `ctxName` and
`ns` are the ambient `okteto.Context().Name` / `.Namespace`.  The provider
failure is wrapped with `fmt.Errorf("...: %s", err)` (a new flat error whose
message embeds the cause's message); the two network-call failures are
returned as they are. -/
def fetchClusterMetadata (provide : Except GoError UserClient)
    (ctxName ns : String) : Except GoError ClusterMetadata :=
  match provide with
  | .error e =>
    .error (.base ("failed to provide okteto client for fetching certs: " ++ errMsg e))
  | .ok uc =>
    match uc.getClusterMetadata ns with
    | .error e => .error e
    | .ok metadata =>
      match metadata.Certificate with
      | some _ => .ok metadata
      | none =>
        match uc.getClusterCertificate ctxName ns with
        | .error e => .error e
        | .ok cert => .ok { metadata with Certificate := some cert }

/-! ## Ignore-file staging (`createDockerignoreIfNeeded`) -/

/-- Result of `fs.Stat`. -/
inductive StatResult where
  | ok
  | notExist
  | otherErr (msg : String)
  deriving Repr, DecidableEq

/-- Modelled from the spec: the afero filesystem seen by the staging step —
a map from paths to byte contents, together with injected failure oracles
for `Stat`, `ReadFile` and `WriteFile` (afero is an external collaborator;
any of its calls may fail with an error other than non-existence). -/
structure StagingFs where
  files : String → Option (List Nat)
  statErr : String → Option String
  readErr : String → Option String
  writeErr : String → Option String

/-- `fs.Stat`: an injected failure, else existence. -/
def fsStat (fs : StagingFs) (path : String) : StatResult :=
  match fs.statErr path with
  | some m => .otherErr m
  | none => if (fs.files path).isSome then .ok else .notExist

/-- `afero.ReadFile`. -/
def fsRead (fs : StagingFs) (path : String) : Except String (List Nat) :=
  match fs.readErr path with
  | some m => .error m
  | none =>
    match fs.files path with
    | some c => .ok c
    | none => .error "file does not exist"

/-- `afero.WriteFile`: an injected failure, else the store updated at
`path`. -/
def fsWrite (fs : StagingFs) (path : String) (content : List Nat) :
    Except String StagingFs :=
  match fs.writeErr path with
  | some m => .error m
  | none => .ok { fs with files := fun q => if q = path then some content else fs.files q }

/-- `createDockerignoreIfNeeded` (`cmd/destroy/remote.go:246-265`): stat
`cwd + "/.oktetodeployignore"`; a non-`NotExist` stat failure is an error,
non-existence is success without any write; otherwise the content is read
and written to `tmpDir + "/.dockerignore"`. -/
def createDockerignoreIfNeeded (fs : StagingFs) (cwd tmpDir : String) :
    Except String StagingFs :=
  let dockerignoreFilePath := cwd ++ "/" ++ ".oktetodeployignore"
  match fsStat fs dockerignoreFilePath with
  | .otherErr m => .error m
  | .notExist => .ok fs
  | .ok =>
    match fsRead fs dockerignoreFilePath with
    | .error m => .error m
    | .ok dockerignoreContent =>
      match fsWrite fs (tmpDir ++ "/" ++ ".dockerignore") dockerignoreContent with
      | .error m => .error m
      | .ok fs2 => .ok fs2

/-! ## Dockerfile template rendering (`dockerfileTemplate`, `createDockerfile`)

The environment-variable identifiers below come from `pkg/model` and
`pkg/constants`, which are not under `src/`. -/

/-- Modelled from the spec: `model.OktetoContextEnvVar`, the stable
identifier binding the active context. -/
def OktetoContextEnvVar : String := "OKTETO_CONTEXT"

/-- Modelled from the spec: `model.OktetoNamespaceEnvVar`. -/
def OktetoNamespaceEnvVar : String := "OKTETO_NAMESPACE"

/-- Modelled from the spec: `model.OktetoTokenEnvVar`. -/
def OktetoTokenEnvVar : String := "OKTETO_TOKEN"

/-- Modelled from the spec: `model.OktetoActionNameEnvVar`, the optional
action-name binding. -/
def OktetoActionNameEnvVar : String := "OKTETO_ACTION_NAME"

/-- Modelled from the spec: `constants.OktetoGitCommitEnvVar`, the optional
git-commit binding. -/
def OktetoGitCommitEnvVar : String := "OKTETO_GIT_COMMIT"

/-- Modelled from the spec: `constants.OKtetoDeployRemote`, the
remote-execution marker (always bound to `true` in the manifest). -/
def OKtetoDeployRemote : String := "OKTETO_DEPLOY_REMOTE"

/-- `dockerfileTemplateProperties` (`cmd/destroy/remote.go:76-95`).
`OktetoBuildEnvVars` is a Go map rendered by `{{range}}` in sorted key
order; it is modelled as the association list in that order.  `RandomInt`
is a Go `int`, always the non-negative result of the `[0, 1000)` draw. -/
structure DockerfileProps where
  OktetoCLIImage : String
  UserDestroyImage : String
  InstallerImage : String
  OktetoBuildEnvVars : List (String × String)
  ContextEnvVar : String
  ContextValue : String
  NamespaceEnvVar : String
  NamespaceValue : String
  TokenEnvVar : String
  TokenValue : String
  ActionNameEnvVar : String
  ActionNameValue : String
  GitCommitEnvVar : String
  GitCommitValue : String
  RemoteDeployEnvVar : String
  DeployFlags : String
  RandomInt : Nat
  DestroyFlags : String

/-- The execution of `dockerfileTemplate` (`cmd/destroy/remote.go:36-73`)
on a properties value.  The template's literal text is reproduced exactly,
written as a concatenation split at its newline characters; `{{range}}`
emits its body once per map entry and `{{ if ne ... "" }}` emits its body
exactly when the value is non-empty, as in Go `text/template`. -/
def renderDockerfile (p : DockerfileProps) : String :=
  "\n" ++ "FROM " ++ p.OktetoCLIImage ++ " as okteto-cli" ++ "\n" ++
  "\n" ++ "FROM " ++ p.InstallerImage ++ " as installer" ++ "\n" ++
  "\n" ++ "FROM alpine as certs" ++ "\n" ++
  "RUN apk update && apk add ca-certificates" ++ "\n" ++
  "\n" ++ "FROM " ++ p.UserDestroyImage ++ " as deploy" ++ "\n" ++
  "\n" ++ "ENV PATH=\"$\x7bPATH\x7d:/okteto/bin\"" ++ "\n" ++
  "COPY --from=certs /etc/ssl/certs /etc/ssl/certs" ++ "\n" ++
  "COPY --from=installer /app/bin/* /okteto/bin/" ++ "\n" ++
  "COPY --from=okteto-cli /usr/local/bin/* /okteto/bin/" ++ "\n" ++
  "\n" ++
  String.join (p.OktetoBuildEnvVars.map
    (fun kv => "\n" ++ "ENV " ++ kv.1 ++ " " ++ kv.2 ++ "\n")) ++
  "\n" ++ "ENV " ++ p.NamespaceEnvVar ++ " " ++ p.NamespaceValue ++ "\n" ++
  "ENV " ++ p.ContextEnvVar ++ " " ++ p.ContextValue ++ "\n" ++
  "ENV " ++ p.TokenEnvVar ++ " " ++ p.TokenValue ++ "\n" ++
  "ENV " ++ p.RemoteDeployEnvVar ++ " true" ++ "\n" ++
  (if p.ActionNameValue ≠ "" then
    "\n" ++ "ENV " ++ p.ActionNameEnvVar ++ " " ++ p.ActionNameValue ++ "\n"
  else "") ++
  "\n" ++
  (if p.GitCommitValue ≠ "" then
    "\n" ++ "ENV " ++ p.GitCommitEnvVar ++ " " ++ p.GitCommitValue ++ "\n"
  else "") ++
  "\n" ++
  "\n" ++ "COPY . /okteto/src" ++ "\n" ++
  "WORKDIR /okteto/src" ++ "\n" ++
  "\n" ++ "ENV OKTETO_INVALIDATE_CACHE " ++ Nat.repr p.RandomInt ++ "\n" ++
  "ARG OKTETO_TLS_CERT_BASE64" ++ "\n" ++
  "ARG INTERNAL_SERVER_NAME=\"\"" ++ "\n" ++
  "RUN echo \"$OKTETO_TLS_CERT_BASE64\" | base64 -d > /etc/ssl/certs/okteto.crt" ++ "\n" ++
  "RUN okteto destroy --log-output=json --server-name=\"$INTERNAL_SERVER_NAME\" " ++
    p.DestroyFlags ++ "\n"

/-- The line decomposition of the rendered manifest for a properties value
whose `OktetoBuildEnvVars` is empty (as in `createDockerfile`, which leaves
the field unset): the entries are the lines of `renderDockerfile p`
whenever no interpolated value contains a newline
(`renderDockerfile_data_joinNL` and `charLines_renderDockerfile` below). -/
def renderedLines (p : DockerfileProps) : List String :=
  ["",
   "FROM " ++ p.OktetoCLIImage ++ " as okteto-cli",
   "",
   "FROM " ++ p.InstallerImage ++ " as installer",
   "",
   "FROM alpine as certs",
   "RUN apk update && apk add ca-certificates",
   "",
   "FROM " ++ p.UserDestroyImage ++ " as deploy",
   "",
   "ENV PATH=\"$\x7bPATH\x7d:/okteto/bin\"",
   "COPY --from=certs /etc/ssl/certs /etc/ssl/certs",
   "COPY --from=installer /app/bin/* /okteto/bin/",
   "COPY --from=okteto-cli /usr/local/bin/* /okteto/bin/",
   "",
   "",
   "ENV " ++ p.NamespaceEnvVar ++ " " ++ p.NamespaceValue,
   "ENV " ++ p.ContextEnvVar ++ " " ++ p.ContextValue,
   "ENV " ++ p.TokenEnvVar ++ " " ++ p.TokenValue,
   "ENV " ++ p.RemoteDeployEnvVar ++ " true"] ++
  (if p.ActionNameValue ≠ "" then
    ["", "ENV " ++ p.ActionNameEnvVar ++ " " ++ p.ActionNameValue, ""]
  else [""]) ++
  (if p.GitCommitValue ≠ "" then
    ["", "ENV " ++ p.GitCommitEnvVar ++ " " ++ p.GitCommitValue, ""]
  else [""]) ++
  ["",
   "COPY . /okteto/src",
   "WORKDIR /okteto/src",
   "",
   "ENV OKTETO_INVALIDATE_CACHE " ++ Nat.repr p.RandomInt,
   "ARG OKTETO_TLS_CERT_BASE64",
   "ARG INTERNAL_SERVER_NAME=\"\"",
   "RUN echo \"$OKTETO_TLS_CERT_BASE64\" | base64 -d > /etc/ssl/certs/okteto.crt",
   "RUN okteto destroy --log-output=json --server-name=\"$INTERNAL_SERVER_NAME\" " ++
     p.DestroyFlags,
   ""]

/-- The properties value assembled by `createDockerfile`
(`cmd/destroy/remote.go:209-227`).  The ambient inputs — the running CLI's
`config.VersionString`, the `OKtetoDeployRemoteImage` environment override,
the context name/namespace/token from `okteto.Context()`, the two optional
environment variables read with `os.Getenv`, the effective destroy image
and the installer image — are passed explicitly; `entropy` is the value
read from the secure random source.  The struct literal in the source does
not set `OktetoBuildEnvVars` (nil map) nor `DeployFlags`. -/
def destroyDockerfileProps (versionString remoteImageEnv ctxName ctxNamespace
    ctxToken actionNameEnv gitCommitEnv destroyImage installerImage : String)
    (opts : Options) (entropy : Nat) : DockerfileProps where
  OktetoCLIImage := getOktetoCLIVersion remoteImageEnv versionString
  InstallerImage := installerImage
  UserDestroyImage := destroyImage
  OktetoBuildEnvVars := []
  ContextEnvVar := OktetoContextEnvVar
  ContextValue := ctxName
  NamespaceEnvVar := OktetoNamespaceEnvVar
  NamespaceValue := ctxNamespace
  TokenEnvVar := OktetoTokenEnvVar
  TokenValue := ctxToken
  ActionNameEnvVar := OktetoActionNameEnvVar
  ActionNameValue := actionNameEnv
  GitCommitEnvVar := OktetoGitCommitEnvVar
  GitCommitValue := gitCommitEnv
  RemoteDeployEnvVar := OKtetoDeployRemote
  DeployFlags := ""
  RandomInt := randInt1000 entropy
  DestroyFlags := joinSpace (getDestroyFlags opts)

/-! ## The destroy orchestration (`remoteDestroyCommand.destroy`) -/

/-- Modelled from the spec: the build request produced by
`build.OptsFromBuildInfoForRemoteDeploy(buildInfo, &types.BuildOptions{Path:
cwd, OutputMode: "destroy"})` (that constructor is not under `src/`) — it
carries the manifest path, the build-context path, the output mode, and the
build arguments appended afterwards by `destroy`. -/
structure BuildOptions where
  Path : String
  OutputMode : String
  Dockerfile : String
  BuildArgs : List String
  deriving Repr, DecidableEq

/-- The observable side effects of one `destroy` run, in order. -/
inductive DestroyEvent where
  | fetchMetadata
  | getWorkingDir (cwd : String)
  | createTempDir (dir : String)
  | createdDockerfile (path : String)
  | changeDir (target : String)
  | buildInvoked (opts : BuildOptions)
  | setStage (s : String)
  | logEOF
  | removedDockerfile (path : String) (removeFailed : Bool)
  deriving Repr, DecidableEq

/-- The collaborators of one `destroy` run: outcomes of the cluster-metadata
fetch, the working-directory controller, the temporal-directory controller,
`createDockerfile` (whose filesystem activity is abstracted to its
outcome), `Change`, the deferred `fs.Remove`, the builder, and the standard
library's base64 encoder. -/
structure DestroyEnv where
  metadataRes : Except GoError ClusterMetadata
  cwdRes : Except GoError String
  tmpDirRes : Except GoError String
  dockerfileRes : String → Except GoError String
  chdirRes : String → Except GoError Unit
  removeRes : String → Except GoError Unit
  buildRes : BuildOptions → Option GoError
  base64Encode : List Nat → String

/-- What a `destroy` run returned, did, and reported:  `ret` is the returned
error (`none` on success), `trace` the ordered side effects, `stage` the
last value passed to `oktetoLog.SetStage`. -/
structure DestroyOutcome where
  ret : Option GoError
  trace : List DestroyEvent
  stage : Option String

/-- The build request constructed by `destroy`
(`cmd/destroy/remote.go:154-169`): context path = the captured working
directory, output mode `"destroy"`, the rendered Dockerfile, and the two
appended build arguments (base64-encoded certificate and internal server
name). -/
def destroyBuildOptions (sc : ClusterMetadata) (cwd dockerfile : String)
    (base64Encode : List Nat → String) : BuildOptions where
  Path := cwd
  OutputMode := "destroy"
  Dockerfile := dockerfile
  BuildArgs :=
    ["OKTETO_TLS_CERT_BASE64=" ++ base64Encode (sc.Certificate.getD []),
      "INTERNAL_SERVER_NAME=" ++ sc.ServerName]

/-- `remoteDestroyCommand.destroy` (`cmd/destroy/remote.go:123-196`),
with `destroyImage` the receiver's configured image.  The deferred removal
of the rendered Dockerfile is registered once the Dockerfile exists and
runs on every later exit path; its failure is only logged (recorded in the
trace), never returned.  A build failure is classified in three cases:
a structured `OktetoCommandErr` found by `errors.As` sets the stage to its
label and returns a `UserError` wrapping its cause; otherwise the stage is
`"remote deploy"` and a `UserError` found by `errors.As` is returned
unchanged, any other error is wrapped into a fresh `UserError`. -/
def destroy (env : DestroyEnv) (_opts : Options) (destroyImage : String) :
    DestroyOutcome :=
  match env.metadataRes with
  | .error err => ⟨some err, [], none⟩
  | .ok sc =>
    let _effectiveImage := if destroyImage = "" then sc.PipelineRunnerImage else destroyImage
    match env.cwdRes with
    | .error err => ⟨some err, [.fetchMetadata], none⟩
    | .ok cwd =>
      match env.tmpDirRes with
      | .error err => ⟨some err, [.fetchMetadata, .getWorkingDir cwd], none⟩
      | .ok tmpDir =>
        match env.dockerfileRes tmpDir with
        | .error err =>
          ⟨some err, [.fetchMetadata, .getWorkingDir cwd, .createTempDir tmpDir], none⟩
        | .ok dockerfile =>
          let removeEv : DestroyEvent :=
            .removedDockerfile dockerfile (!(env.removeRes dockerfile).isOk)
          let evs := [DestroyEvent.fetchMetadata, .getWorkingDir cwd,
            .createTempDir tmpDir, .createdDockerfile dockerfile]
          match env.chdirRes cwd with
          | .error err => ⟨some err, evs ++ [removeEv], none⟩
          | .ok _ =>
            let buildOptions := destroyBuildOptions sc cwd dockerfile env.base64Encode
            let evs := evs ++ [DestroyEvent.changeDir cwd, .buildInvoked buildOptions]
            match env.buildRes buildOptions with
            | some err =>
              match errorsAsCmd err with
              | some (stage, cause) =>
                ⟨some (.user (.errorf "error during development environment deployment" cause)),
                  evs ++ [.setStage stage, removeEv], some stage⟩
              | none =>
                match errorsAsUser err with
                | some userErr =>
                  ⟨some userErr, evs ++ [.setStage "remote deploy", removeEv],
                    some "remote deploy"⟩
                | none =>
                  ⟨some (.user (.errorf "error during destroy of the development environment" err)),
                    evs ++ [.setStage "remote deploy", removeEv], some "remote deploy"⟩
            | none =>
              ⟨none, evs ++ [.setStage "done", .logEOF, removeEv], some "done"⟩

/-! ## Line structure of rendered text -/

/-- The lines of a character sequence, split at `'\n'` (a trailing newline
yields a final empty line, as `Split` semantics). -/
def charLines : List Char → List (List Char)
  | [] => [[]]
  | c :: cs =>
    if c = '\n' then [] :: charLines cs
    else
      match charLines cs with
      | [] => [[c]]
      | l :: ls => (c :: l) :: ls

/-- A string free of newline characters. -/
def noNL (s : String) : Prop := '\n' ∉ s.data

instance (s : String) : Decidable (noNL s) := by
  unfold noNL; infer_instance

/-- Joining lines back with single newline separators. -/
def joinNL : List (List Char) → List Char
  | [] => []
  | [l] => l
  | l :: l' :: ls => l ++ '\n' :: joinNL (l' :: ls)

/-- The number of lines of `s` that begin with `ENV <name> ` — the ENV
lines binding environment variable `name`. -/
def envLineCount (s : String) (name : String) : Nat :=
  ((charLines s.data).filter
    (fun l => ("ENV " ++ name ++ " ").data.isPrefixOf l)).length

/-- Whether some line of `s` is exactly `line`. -/
def hasLine (s : String) (line : String) : Prop :=
  line.data ∈ charLines s.data

/-! ## Shell word splitting

Modelled from the spec: how a POSIX shell splits the synthesized
`okteto destroy ... <flags>` command line into words — double quotes group
characters (including spaces) into one word and are removed; unquoted runs
of spaces separate words. -/

/-- First pass: drop the double quotes, marking each remaining character
with whether it occurred inside quotes. -/
def markQuoted : List Char → Bool → List (Char × Bool)
  | [], _ => []
  | c :: cs, q =>
    if c = '"' then markQuoted cs (!q) else (c, q) :: markQuoted cs q

/-- An unquoted space: a word separator. -/
def isSpaceTok (x : Char × Bool) : Bool := x.1 = ' ' && !x.2

/-- Second pass: split at unquoted spaces, collapsing runs of separators. -/
def wordsOfMarked : List (Char × Bool) → List (List Char)
  | [] => []
  | x :: xs =>
    if isSpaceTok x then wordsOfMarked xs
    else
      match xs, wordsOfMarked xs with
      | [], _ => [[x.1]]
      | y :: _, ws =>
        if isSpaceTok y then [x.1] :: ws
        else
          match ws with
          | [] => [[x.1]]
          | w :: ws' => (x.1 :: w) :: ws'

/-- The shell words of a command-line string. -/
def shellWords (s : String) : List String :=
  (wordsOfMarked (markQuoted s.data false)).map (fun l => String.mk l)

/-- Chunks of non-separator tokens joined by single unquoted spaces (the
shape of a marked command line whose words are known). -/
def joinSep : List (List (Char × Bool)) → List (Char × Bool)
  | [] => []
  | [c] => c
  | c :: c' :: cs => c ++ (' ', false) :: joinSep (c' :: cs)

/-! ## Helper lemmas: line splitting -/

theorem charLines_ne_nil (cs : List Char) : charLines cs ≠ [] := by
  match cs with
  | [] => simp [charLines]
  | c :: cs =>
    by_cases h : c = '\n'
    · simp [charLines, h]
    · simp only [charLines, if_neg h]
      cases charLines cs <;> simp

theorem charLines_nl_cons (cs : List Char) :
    charLines ('\n' :: cs) = [] :: charLines cs := by
  simp [charLines]

theorem charLines_append (a b : List Char) (h : '\n' ∉ a) :
    charLines (a ++ b) = (a ++ (charLines b).headI) :: (charLines b).tail := by
  induction a with
  | nil =>
    simp only [List.nil_append]
    rcases hb : charLines b with _ | ⟨l, ls⟩
    · exact absurd hb (charLines_ne_nil b)
    · simp
  | cons c a ih =>
    have hc : c ≠ '\n' := by
      intro hc; exact h (hc ▸ List.mem_cons_self c a)
    have ha : '\n' ∉ a := fun hm => h (List.mem_cons_of_mem c hm)
    have ih2 : charLines (List.append a b) =
        (a ++ (charLines b).headI) :: (charLines b).tail := ih ha
    simp only [List.cons_append, charLines, if_neg hc, ih2]

theorem charLines_joinNL (ls : List (List Char)) (h : ∀ l ∈ ls, '\n' ∉ l)
    (hne : ls ≠ []) : charLines (joinNL ls) = ls := by
  induction ls with
  | nil => exact absurd rfl hne
  | cons l ls ih =>
    rcases ls with _ | ⟨l', ls'⟩
    · have hl : '\n' ∉ l := h l (List.mem_cons_self l [])
      have : charLines (joinNL [l]) = charLines (l ++ []) := by simp [joinNL]
      rw [this, charLines_append l [] hl]
      simp [charLines]
    · have hl : '\n' ∉ l := h l (List.mem_cons_self l _)
      have hrec : charLines (joinNL (l' :: ls')) = l' :: ls' :=
        ih (fun x hx => h x (List.mem_cons_of_mem l hx)) (by simp)
      show charLines (l ++ '\n' :: joinNL (l' :: ls')) = l :: l' :: ls'
      rw [charLines_append l _ hl, charLines_nl_cons, hrec]
      simp

/-! ## Helper lemmas: newline-freedom and prefixes -/

theorem noNL_append {a b : String} (ha : noNL a) (hb : noNL b) : noNL (a ++ b) := by
  simp only [noNL, String.data_append, List.mem_append] at *
  rintro (h | h)
  · exact ha h
  · exact hb h

theorem not_isPrefixOf_append {p lit rest : List Char}
    (h1 : p.isPrefixOf lit = false) (h2 : lit.isPrefixOf p = false) :
    p.isPrefixOf (lit ++ rest) = false := by
  rw [Bool.eq_false_iff]
  intro h
  have hp : p <+: lit ++ rest := List.isPrefixOf_iff_prefix.mp h
  have hl : lit <+: lit ++ rest := List.prefix_append lit rest
  rcases List.prefix_or_prefix_of_prefix hp hl with h' | h'
  · rw [← List.isPrefixOf_iff_prefix] at h'
    simp [h1] at h'
  · rw [← List.isPrefixOf_iff_prefix] at h'
    simp [h2] at h'

theorem isPrefixOf_append_self (p rest : List Char) :
    p.isPrefixOf (p ++ rest) = true :=
  List.isPrefixOf_iff_prefix.mpr (List.prefix_append p rest)

/-! ## Helper lemmas: the rendered manifest's lines -/

set_option maxRecDepth 8000 in
set_option maxHeartbeats 1000000 in
theorem renderDockerfile_data_joinNL (p : DockerfileProps)
    (hbe : p.OktetoBuildEnvVars = []) :
    (renderDockerfile p).data = joinNL ((renderedLines p).map String.data) := by
  have hnl : ("\n" : String).data = ['\n'] := rfl
  have hem : ("" : String).data = [] := rfl
  by_cases ha : p.ActionNameValue = "" <;> by_cases hg : p.GitCommitValue = "" <;>
    simp only [renderDockerfile, renderedLines, hbe, ha, hg, ne_eq, eq_self_iff_true,
      not_true, not_false_eq_true, ite_true, ite_false, if_true, if_false,
      List.map_nil, String.join, List.map_cons, List.map_append, List.foldl,
      List.cons_append, List.nil_append, String.data_append, hnl, hem,
      List.singleton_append, joinNL, List.append_assoc, List.append_nil]

theorem noNL_renderedLines (p : DockerfileProps)
    (h1 : noNL p.OktetoCLIImage) (h2 : noNL p.InstallerImage)
    (h3 : noNL p.UserDestroyImage)
    (h4 : noNL p.NamespaceEnvVar) (h5 : noNL p.NamespaceValue)
    (h6 : noNL p.ContextEnvVar) (h7 : noNL p.ContextValue)
    (h8 : noNL p.TokenEnvVar) (h9 : noNL p.TokenValue)
    (h10 : noNL p.RemoteDeployEnvVar)
    (h11 : noNL p.ActionNameEnvVar) (h12 : noNL p.ActionNameValue)
    (h13 : noNL p.GitCommitEnvVar) (h14 : noNL p.GitCommitValue)
    (h15 : noNL (Nat.repr p.RandomInt)) (h16 : noNL p.DestroyFlags) :
    ∀ s ∈ renderedLines p, noNL s := by
  by_cases ha : p.ActionNameValue = "" <;> by_cases hg : p.GitCommitValue = "" <;>
    (simp only [renderedLines, ha, hg, ne_eq, eq_self_iff_true, not_true,
      not_false_eq_true, ite_true, ite_false, if_true, if_false,
      List.forall_mem_append, List.forall_mem_cons, List.forall_mem_nil, and_true];
     repeat' apply And.intro) <;>
    (repeat (first | assumption | apply noNL_append)) <;>
    (first | assumption | decide)

theorem charLines_renderDockerfile (p : DockerfileProps)
    (hbe : p.OktetoBuildEnvVars = []) (hs : ∀ s ∈ renderedLines p, noNL s) :
    charLines (renderDockerfile p).data = (renderedLines p).map String.data := by
  rw [renderDockerfile_data_joinNL p hbe]
  apply charLines_joinNL
  · intro l hl
    rcases List.mem_map.mp hl with ⟨s, hsmem, rfl⟩
    exact hs s hsmem
  · simp [renderedLines]

theorem noNL_getOktetoCLIVersion {remoteImage versionString : String}
    (h1 : noNL remoteImage) (h2 : noNL versionString) :
    noNL (getOktetoCLIVersion remoteImage versionString) := by
  unfold getOktetoCLIVersion oktetoCLIImageForRemoteTemplate
  split
  · exact noNL_append (by decide) h2
  · split
    · exact h1
    · decide

/-- `getDestroyFlags` characterized as five conditional tokens in fixed
order. -/
theorem getDestroyFlags_eq (opts : Options) :
    getDestroyFlags opts =
      (if opts.Name = "" then [] else ["--name \"" ++ opts.Name ++ "\""]) ++
      (if opts.Namespace = "" then [] else ["--namespace " ++ opts.Namespace]) ++
      (if opts.ManifestPathFlag = "" then []
       else ["--file " ++ opts.ManifestPathFlag]) ++
      (if opts.DestroyVolumes then ["--volumes"] else []) ++
      (if opts.ForceDestroy then ["--force-destroy"] else []) := by
  unfold getDestroyFlags
  by_cases hn : opts.Name = "" <;> by_cases hns : opts.Namespace = "" <;>
    by_cases hm : opts.ManifestPathFlag = "" <;> cases hv : opts.DestroyVolumes <;>
    cases hf : opts.ForceDestroy <;> simp [hn, hns, hm]

theorem noNL_mem_getDestroyFlags {opts : Options}
    (h1 : noNL opts.Name) (h2 : noNL opts.Namespace)
    (h3 : noNL opts.ManifestPathFlag) :
    ∀ s ∈ getDestroyFlags opts, noNL s := by
  intro s hs
  rw [getDestroyFlags_eq] at hs
  simp only [List.mem_append] at hs
  rcases hs with ((((h | h) | h) | h) | h) <;>
    (split at h <;> simp only [List.mem_singleton, List.not_mem_nil] at h) <;>
    subst h <;>
    (repeat (first | assumption | apply noNL_append)) <;>
    (first | assumption | decide)

theorem noNL_joinSpace {l : List String} (h : ∀ s ∈ l, noNL s) :
    noNL (joinSpace l) := by
  induction l with
  | nil => decide
  | cons x xs ih =>
    rcases xs with _ | ⟨y, ys⟩
    · exact h x (List.mem_cons_self x [])
    · have hx : noNL x := h x (List.mem_cons_self x _)
      have hr : noNL (joinSpace (y :: ys)) :=
        ih (fun s hs => h s (List.mem_cons_of_mem x hs))
      exact noNL_append (noNL_append hx (by decide)) hr

set_option maxRecDepth 10000 in
theorem noNL_repr_lt1000 : ∀ n : Nat, n < 1000 → noNL (Nat.repr n) := by decide

/-! ## Helper lemmas: shell word splitting -/

theorem markQuoted_append_noquote {a : List Char} (b : List Char) (q : Bool)
    (h : '"' ∉ a) :
    markQuoted (a ++ b) q = a.map (fun c => (c, q)) ++ markQuoted b q := by
  induction a with
  | nil => simp
  | cons c a ih =>
    have hc : c ≠ '"' := by
      intro hc; exact h (hc ▸ List.mem_cons_self c a)
    have ha : '"' ∉ a := fun hm => h (List.mem_cons_of_mem c hm)
    have ih2 : markQuoted (List.append a b) q =
        a.map (fun c => (c, q)) ++ markQuoted b q := ih ha
    simp only [List.cons_append, markQuoted, if_neg hc, ih2, List.map_cons]

theorem markQuoted_quote_cons (cs : List Char) (q : Bool) :
    markQuoted ('"' :: cs) q = markQuoted cs (!q) := by
  simp [markQuoted]

theorem isSpaceTok_quoted (c : Char) : isSpaceTok (c, true) = false := by
  simp [isSpaceTok]

theorem wordsOfMarked_sep_cons {x : Char × Bool} (xs : List (Char × Bool))
    (h : isSpaceTok x = true) : wordsOfMarked (x :: xs) = wordsOfMarked xs := by
  simp [wordsOfMarked, h]

theorem wordsOfMarked_chunk (A xs : List (Char × Bool)) (hA : A ≠ [])
    (h1 : ∀ a ∈ A, isSpaceTok a = false)
    (h2 : xs = [] ∨ ∃ y ys, xs = y :: ys ∧ isSpaceTok y = true) :
    wordsOfMarked (A ++ xs) = A.map Prod.fst :: wordsOfMarked xs := by
  induction A with
  | nil => exact absurd rfl hA
  | cons a A ih =>
    have hna : isSpaceTok a = false := h1 a (List.mem_cons_self a A)
    rcases A with _ | ⟨a', A'⟩
    · rcases h2 with rfl | ⟨y, ys, rfl, hy⟩
      · simp [wordsOfMarked, hna]
      · simp [wordsOfMarked, hna, hy]
    · have hna' : isSpaceTok a' = false :=
        h1 a' (List.mem_cons_of_mem a (List.mem_cons_self a' A'))
      have ihr : wordsOfMarked (a' :: (A' ++ xs)) =
          (a'.1 :: A'.map Prod.fst) :: wordsOfMarked xs := by
        have h' := ih (by simp) (fun x hx => h1 x (List.mem_cons_of_mem a hx))
        simpa using h'
      rw [List.cons_append, List.cons_append, wordsOfMarked,
        if_neg (by simp [hna]), ihr]
      simp [hna']

theorem wordsOfMarked_joinSep (chunks : List (List (Char × Bool)))
    (h : ∀ c ∈ chunks, c ≠ [] ∧ ∀ a ∈ c, isSpaceTok a = false) :
    wordsOfMarked (joinSep chunks) = chunks.map (List.map Prod.fst) := by
  induction chunks with
  | nil => simp [joinSep, wordsOfMarked]
  | cons c cs ih =>
    rcases cs with _ | ⟨c', cs'⟩
    · have hc := h c (List.mem_cons_self c [])
      have : joinSep [c] = c ++ [] := by simp [joinSep]
      rw [this, wordsOfMarked_chunk c [] hc.1 hc.2 (Or.inl rfl)]
      simp [wordsOfMarked]
    · have hc := h c (List.mem_cons_self c _)
      have hrec : wordsOfMarked (joinSep (c' :: cs')) =
          (c' :: cs').map (List.map Prod.fst) :=
        ih (fun x hx => h x (List.mem_cons_of_mem c hx))
      show wordsOfMarked (c ++ (' ', false) :: joinSep (c' :: cs')) = _
      rw [wordsOfMarked_chunk c ((' ', false) :: joinSep (c' :: cs')) hc.1 hc.2
        (Or.inr ⟨(' ', false), joinSep (c' :: cs'), rfl, by decide⟩)]
      rw [wordsOfMarked_sep_cons _ (by decide), hrec]
      simp

theorem stringMk_data (s : String) : String.mk s.data = s := rfl

/-! ## Helper lemmas: ENV-line counting in the rendered manifest -/

set_option maxRecDepth 8000 in
set_option maxHeartbeats 2000000 in
/-- The ENV-line structure of the rendered manifest, for any properties
value carrying the fixed binding identifiers, an empty build-env map, and
newline-free values: each optional binding contributes exactly one ENV line
when non-empty and none when empty, and the required bindings are always
present. -/
theorem renderDockerfile_env_lines (p : DockerfileProps)
    (hbe : p.OktetoBuildEnvVars = [])
    (hns : p.NamespaceEnvVar = "OKTETO_NAMESPACE")
    (hctx : p.ContextEnvVar = "OKTETO_CONTEXT")
    (htok : p.TokenEnvVar = "OKTETO_TOKEN")
    (hrem : p.RemoteDeployEnvVar = "OKTETO_DEPLOY_REMOTE")
    (han : p.ActionNameEnvVar = "OKTETO_ACTION_NAME")
    (hgc : p.GitCommitEnvVar = "OKTETO_GIT_COMMIT")
    (n1 : noNL p.OktetoCLIImage) (n2 : noNL p.InstallerImage)
    (n3 : noNL p.UserDestroyImage) (n5 : noNL p.NamespaceValue)
    (n7 : noNL p.ContextValue) (n9 : noNL p.TokenValue)
    (n12 : noNL p.ActionNameValue) (n14 : noNL p.GitCommitValue)
    (n15 : noNL (Nat.repr p.RandomInt)) (n16 : noNL p.DestroyFlags) :
    (envLineCount (renderDockerfile p) "OKTETO_ACTION_NAME" =
      if p.ActionNameValue = "" then 0 else 1) ∧
    (envLineCount (renderDockerfile p) "OKTETO_GIT_COMMIT" =
      if p.GitCommitValue = "" then 0 else 1) ∧
    hasLine (renderDockerfile p) ("ENV OKTETO_CONTEXT " ++ p.ContextValue) ∧
    hasLine (renderDockerfile p) ("ENV OKTETO_NAMESPACE " ++ p.NamespaceValue) ∧
    hasLine (renderDockerfile p) ("ENV OKTETO_TOKEN " ++ p.TokenValue) ∧
    hasLine (renderDockerfile p) "ENV OKTETO_DEPLOY_REMOTE true" := by
  have hlines : charLines (renderDockerfile p).data =
      (renderedLines p).map String.data := by
    apply charLines_renderDockerfile p hbe
    apply noNL_renderedLines p n1 n2 n3 <;>
      first
        | (rw [hns]; decide)
        | (rw [hctx]; decide)
        | (rw [htok]; decide)
        | (rw [hrem]; decide)
        | (rw [han]; decide)
        | (rw [hgc]; decide)
        | assumption
  have aFROM : ∀ rest, List.isPrefixOf "ENV OKTETO_ACTION_NAME ".data
      ("FROM ".data ++ rest) = false :=
    fun _ => not_isPrefixOf_append (by decide) (by decide)
  have aNS : ∀ rest, List.isPrefixOf "ENV OKTETO_ACTION_NAME ".data
      ("ENV OKTETO_NAMESPACE ".data ++ rest) = false :=
    fun _ => not_isPrefixOf_append (by decide) (by decide)
  have aCTX : ∀ rest, List.isPrefixOf "ENV OKTETO_ACTION_NAME ".data
      ("ENV OKTETO_CONTEXT ".data ++ rest) = false :=
    fun _ => not_isPrefixOf_append (by decide) (by decide)
  have aTOK : ∀ rest, List.isPrefixOf "ENV OKTETO_ACTION_NAME ".data
      ("ENV OKTETO_TOKEN ".data ++ rest) = false :=
    fun _ => not_isPrefixOf_append (by decide) (by decide)
  have aGIT : ∀ rest, List.isPrefixOf "ENV OKTETO_ACTION_NAME ".data
      ("ENV OKTETO_GIT_COMMIT ".data ++ rest) = false :=
    fun _ => not_isPrefixOf_append (by decide) (by decide)
  have aACT : ∀ rest, List.isPrefixOf "ENV OKTETO_ACTION_NAME ".data
      ("ENV OKTETO_ACTION_NAME ".data ++ rest) = true :=
    fun rest => isPrefixOf_append_self _ rest
  have aINV : ∀ rest, List.isPrefixOf "ENV OKTETO_ACTION_NAME ".data
      ("ENV OKTETO_INVALIDATE_CACHE ".data ++ rest) = false :=
    fun _ => not_isPrefixOf_append (by decide) (by decide)
  have aRUN : ∀ rest, List.isPrefixOf "ENV OKTETO_ACTION_NAME ".data
      ("RUN okteto destroy --log-output=json --server-name=\"$INTERNAL_SERVER_NAME\" ".data
        ++ rest) = false :=
    fun _ => not_isPrefixOf_append (by decide) (by decide)
  have gFROM : ∀ rest, List.isPrefixOf "ENV OKTETO_GIT_COMMIT ".data
      ("FROM ".data ++ rest) = false :=
    fun _ => not_isPrefixOf_append (by decide) (by decide)
  have gNS : ∀ rest, List.isPrefixOf "ENV OKTETO_GIT_COMMIT ".data
      ("ENV OKTETO_NAMESPACE ".data ++ rest) = false :=
    fun _ => not_isPrefixOf_append (by decide) (by decide)
  have gCTX : ∀ rest, List.isPrefixOf "ENV OKTETO_GIT_COMMIT ".data
      ("ENV OKTETO_CONTEXT ".data ++ rest) = false :=
    fun _ => not_isPrefixOf_append (by decide) (by decide)
  have gTOK : ∀ rest, List.isPrefixOf "ENV OKTETO_GIT_COMMIT ".data
      ("ENV OKTETO_TOKEN ".data ++ rest) = false :=
    fun _ => not_isPrefixOf_append (by decide) (by decide)
  have gACT : ∀ rest, List.isPrefixOf "ENV OKTETO_GIT_COMMIT ".data
      ("ENV OKTETO_ACTION_NAME ".data ++ rest) = false :=
    fun _ => not_isPrefixOf_append (by decide) (by decide)
  have gGIT : ∀ rest, List.isPrefixOf "ENV OKTETO_GIT_COMMIT ".data
      ("ENV OKTETO_GIT_COMMIT ".data ++ rest) = true :=
    fun rest => isPrefixOf_append_self _ rest
  have gINV : ∀ rest, List.isPrefixOf "ENV OKTETO_GIT_COMMIT ".data
      ("ENV OKTETO_INVALIDATE_CACHE ".data ++ rest) = false :=
    fun _ => not_isPrefixOf_append (by decide) (by decide)
  have gRUN : ∀ rest, List.isPrefixOf "ENV OKTETO_GIT_COMMIT ".data
      ("RUN okteto destroy --log-output=json --server-name=\"$INTERNAL_SERVER_NAME\" ".data
        ++ rest) = false :=
    fun _ => not_isPrefixOf_append (by decide) (by decide)
  simp only [List.cons_append, String.data_append, List.append_assoc] at aFROM aNS aCTX aTOK aGIT aACT aINV aRUN
  simp only [List.cons_append, String.data_append, List.append_assoc] at gFROM gNS gCTX gTOK gACT gGIT gINV gRUN
  refine ⟨?_, ?_, ?_, ?_, ?_, ?_⟩
  · unfold envLineCount
    rw [hlines]
    by_cases ha : p.ActionNameValue = "" <;> by_cases hg : p.GitCommitValue = "" <;>
      simp [renderedLines, hns, hctx, htok, hrem, han, hgc, ha, hg,
        List.filter_cons, List.filter_append,
        aFROM, aNS, aCTX, aTOK, aGIT, aACT, aINV, aRUN]
  · unfold envLineCount
    rw [hlines]
    by_cases ha : p.ActionNameValue = "" <;> by_cases hg : p.GitCommitValue = "" <;>
      simp [renderedLines, hns, hctx, htok, hrem, han, hgc, ha, hg,
        List.filter_cons, List.filter_append,
        gFROM, gNS, gCTX, gTOK, gACT, gGIT, gINV, gRUN]
  · unfold hasLine
    rw [hlines]
    simp [renderedLines, hctx, List.mem_append]
  · unfold hasLine
    rw [hlines]
    simp [renderedLines, hns, List.mem_append]
  · unfold hasLine
    rw [hlines]
    simp [renderedLines, htok, List.mem_append]
  · unfold hasLine
    rw [hlines]
    simp [renderedLines, hrem, List.mem_append]

/-! ## Claims -/

/-- C2: for every `Options` value the derived destroy flag list contains a
flag only when its source field is non-empty (name, namespace,
manifest-path) or true (volumes, force), always in the fixed order name,
namespace, manifest-path, volumes, force; and for
`{Name: "myenv", Namespace: "ns1", DestroyVolumes: true}` it equals exactly
`["--name \"myenv\"", "--namespace ns1", "--volumes"]`. -/
theorem c2_flag_list_conditional_and_ordered :
    (∀ opts : Options,
      getDestroyFlags opts =
        (if opts.Name = "" then [] else ["--name \"" ++ opts.Name ++ "\""]) ++
        (if opts.Namespace = "" then [] else ["--namespace " ++ opts.Namespace]) ++
        (if opts.ManifestPathFlag = "" then []
         else ["--file " ++ opts.ManifestPathFlag]) ++
        (if opts.DestroyVolumes then ["--volumes"] else []) ++
        (if opts.ForceDestroy then ["--force-destroy"] else [])) ∧
    getDestroyFlags
        { Name := "myenv", Namespace := "ns1", ManifestPathFlag := "",
          DestroyVolumes := true, ForceDestroy := false } =
      ["--name \"myenv\"", "--namespace ns1", "--volumes"] :=
  ⟨getDestroyFlags_eq, by decide⟩

set_option maxRecDepth 10000 in
/-- C3 counterexample: the claim says two consecutive renders never embed
the same nonce.  But the nonce is a uniform draw from `[0, 1000)`: two
invocations whose secure source yields the distinct entropy values `7` and
`1007` embed the same nonce — indeed they render byte-identical
manifests. -/
theorem c3_counterexample :
    (7 : Nat) ≠ 1007 ∧
    (destroyDockerfileProps "1.2.3" "" "ctx" "ns" "tok" "" "" "img" "inst"
        { Name := "", Namespace := "", ManifestPathFlag := "",
          DestroyVolumes := false, ForceDestroy := false } 7).RandomInt =
      (destroyDockerfileProps "1.2.3" "" "ctx" "ns" "tok" "" "" "img" "inst"
        { Name := "", Namespace := "", ManifestPathFlag := "",
          DestroyVolumes := false, ForceDestroy := false } 1007).RandomInt ∧
    renderDockerfile
        (destroyDockerfileProps "1.2.3" "" "ctx" "ns" "tok" "" "" "img" "inst"
          { Name := "", Namespace := "", ManifestPathFlag := "",
            DestroyVolumes := false, ForceDestroy := false } 7) =
      renderDockerfile
        (destroyDockerfileProps "1.2.3" "" "ctx" "ns" "tok" "" "" "img" "inst"
          { Name := "", Namespace := "", ManifestPathFlag := "",
            DestroyVolumes := false, ForceDestroy := false } 1007) := by
  refine ⟨by decide, by decide, by decide⟩

/-- C3 (amended): the cache-invalidation nonce embedded in the rendered
manifest is the integer drawn from the secure random source, always in
range `[0, 1000)`; two consecutive renders differ with overwhelming
probability but may coincide (the draw is not guaranteed unique). -/
theorem c3_nonce_from_draw_in_range :
    ∀ (vs ri cn cns tok an gc di ii : String) (opts : Options) (entropy : Nat),
    (destroyDockerfileProps vs ri cn cns tok an gc di ii opts entropy).RandomInt =
      randInt1000 entropy ∧
    randInt1000 entropy < 1000 :=
  fun _ _ _ _ _ _ _ _ _ _ entropy =>
    ⟨rfl, Nat.mod_lt entropy (by decide)⟩

/-- C4 counterexample: the claim's "if and only if" fails in the only-if
direction: for version string `"latest"` (which does not match the
three-part numeric pattern) with an empty environment override, the
function nevertheless returns the template formatted with that very
version string. -/
theorem c4_counterexample :
    getOktetoCLIVersion "" "latest" = oktetoCLIImageForRemoteTemplate "latest" ∧
    matchesThreePartVersion "latest" = false := by
  refine ⟨by decide, by decide⟩

/-- C4 (amended): if the version string matches the three-component numeric
pattern (anywhere in the string, as `regexp.MatchString` searches), the
result is the canonical template formatted with that string; otherwise the
result is the environment override when non-empty and the template
formatted with `"latest"` when empty.  In particular `"1.2.3"` matches and
`"dev"` does not. -/
theorem c4_version_resolution :
    ∀ remoteImage versionString : String,
    (matchesThreePartVersion versionString = true →
      getOktetoCLIVersion remoteImage versionString =
        oktetoCLIImageForRemoteTemplate versionString) ∧
    (matchesThreePartVersion versionString = false → remoteImage ≠ "" →
      getOktetoCLIVersion remoteImage versionString = remoteImage) ∧
    (matchesThreePartVersion versionString = false → remoteImage = "" →
      getOktetoCLIVersion remoteImage versionString =
        oktetoCLIImageForRemoteTemplate "latest") ∧
    matchesThreePartVersion "1.2.3" = true ∧
    matchesThreePartVersion "dev" = false := by
  intro ri vs
  refine ⟨?_, ?_, ?_, by decide, by decide⟩
  · intro h
    simp [getOktetoCLIVersion, h]
  · intro h hne
    simp [getOktetoCLIVersion, h, hne]
  · intro h he
    simp [getOktetoCLIVersion, h, he]

/-- Witness for C4 (amended) at concrete inputs. -/
theorem c4_version_resolution_witness :
    getOktetoCLIVersion "" "1.2.3" = "okteto/okteto:1.2.3" ∧
    getOktetoCLIVersion "registry.dev/cli:pr-123" "dev" = "registry.dev/cli:pr-123" ∧
    getOktetoCLIVersion "" "dev" = "okteto/okteto:latest" := by
  refine ⟨?_, ?_, ?_⟩
  · have h := (c4_version_resolution "" "1.2.3").1 (by decide)
    simpa [oktetoCLIImageForRemoteTemplate] using h
  · exact (c4_version_resolution "registry.dev/cli:pr-123" "dev").2.1 (by decide)
      (by decide)
  · have h := (c4_version_resolution "" "dev").2.2.1 (by decide) rfl
    simpa [oktetoCLIImageForRemoteTemplate] using h

/-- C6: staging the ignore-file — if `.oktetodeployignore` exists in the
working directory, a `.dockerignore` with byte-identical content is created
in the ephemeral directory; if it does not exist, staging succeeds without
creating the destination; any stat, read, or write failure other than
non-existence makes staging return an error. -/
theorem c6_dockerignore_staging :
    ∀ (fs : StagingFs) (cwd tmpDir : String),
    (∀ content : List Nat,
      fs.statErr (cwd ++ "/" ++ ".oktetodeployignore") = none →
      fs.files (cwd ++ "/" ++ ".oktetodeployignore") = some content →
      fs.readErr (cwd ++ "/" ++ ".oktetodeployignore") = none →
      fs.writeErr (tmpDir ++ "/" ++ ".dockerignore") = none →
      ∃ fs2, createDockerignoreIfNeeded fs cwd tmpDir = .ok fs2 ∧
        fs2.files (tmpDir ++ "/" ++ ".dockerignore") = some content) ∧
    (fs.statErr (cwd ++ "/" ++ ".oktetodeployignore") = none →
      fs.files (cwd ++ "/" ++ ".oktetodeployignore") = none →
      createDockerignoreIfNeeded fs cwd tmpDir = .ok fs) ∧
    (∀ m, fs.statErr (cwd ++ "/" ++ ".oktetodeployignore") = some m →
      createDockerignoreIfNeeded fs cwd tmpDir = .error m) ∧
    (∀ content m,
      fs.statErr (cwd ++ "/" ++ ".oktetodeployignore") = none →
      fs.files (cwd ++ "/" ++ ".oktetodeployignore") = some content →
      fs.readErr (cwd ++ "/" ++ ".oktetodeployignore") = some m →
      createDockerignoreIfNeeded fs cwd tmpDir = .error m) ∧
    (∀ content m,
      fs.statErr (cwd ++ "/" ++ ".oktetodeployignore") = none →
      fs.files (cwd ++ "/" ++ ".oktetodeployignore") = some content →
      fs.readErr (cwd ++ "/" ++ ".oktetodeployignore") = none →
      fs.writeErr (tmpDir ++ "/" ++ ".dockerignore") = some m →
      createDockerignoreIfNeeded fs cwd tmpDir = .error m) := by
  intro fs cwd tmpDir
  refine ⟨?_, ?_, ?_, ?_, ?_⟩
  · intro content hstat hfile hread hwrite
    refine ⟨StagingFs.mk
      (fun q => if q = tmpDir ++ "/" ++ ".dockerignore" then some content else fs.files q)
      fs.statErr fs.readErr fs.writeErr, ?_, ?_⟩
    · simp only [createDockerignoreIfNeeded, fsStat, fsRead, fsWrite, hstat,
        hfile, hread, hwrite, Option.isSome_some, if_true]
    · simp
  · intro hstat hfile
    simp only [createDockerignoreIfNeeded, fsStat, hstat, hfile,
      Option.isSome_none, Bool.false_eq_true, if_false]
  · intro m hstat
    simp only [createDockerignoreIfNeeded, fsStat, hstat]
  · intro content m hstat hfile hread
    simp only [createDockerignoreIfNeeded, fsStat, fsRead, hstat, hfile, hread,
      Option.isSome_some, if_true]
  · intro content m hstat hfile hread hwrite
    simp only [createDockerignoreIfNeeded, fsStat, fsRead, fsWrite, hstat,
      hfile, hread, hwrite, Option.isSome_some, if_true]

/-- Witness for C6 at a concrete filesystem: the ignore-file is present with
content `[1, 2, 3]` and is copied to the destination name byte-for-byte. -/
theorem c6_dockerignore_staging_witness :
    ∃ fs2,
      createDockerignoreIfNeeded
        { files := fun p =>
            if p = "/wd" ++ "/" ++ ".oktetodeployignore" then some [1, 2, 3] else none
          statErr := fun _ => none
          readErr := fun _ => none
          writeErr := fun _ => none } "/wd" "/tmp1" = .ok fs2 ∧
      fs2.files ("/tmp1" ++ "/" ++ ".dockerignore") = some [1, 2, 3] :=
  (c6_dockerignore_staging
    { files := fun p =>
        if p = "/wd" ++ "/" ++ ".oktetodeployignore" then some [1, 2, 3] else none
      statErr := fun _ => none
      readErr := fun _ => none
      writeErr := fun _ => none } "/wd" "/tmp1").1 [1, 2, 3] rfl (by simp) rfl rfl

/-- C7: cluster metadata fetching first requests metadata for the current
namespace; when the result lacks a certificate a second call fetches the
certificate scoped to (context name, namespace) and merges it in; client
construction failure is wrapped with context, and a failure of either
network call propagates as the returned error (no retry: the first call's
failure is terminal for every certificate-call behavior). -/
theorem c7_cluster_metadata_fetch :
    ∀ (uc : UserClient) (ctxName ns : String),
    (∀ e, fetchClusterMetadata (.error e) ctxName ns =
      .error (.base ("failed to provide okteto client for fetching certs: " ++
        errMsg e))) ∧
    (∀ e, uc.getClusterMetadata ns = .error e →
      fetchClusterMetadata (.ok uc) ctxName ns = .error e) ∧
    (∀ md c0, uc.getClusterMetadata ns = .ok md → md.Certificate = some c0 →
      fetchClusterMetadata (.ok uc) ctxName ns = .ok md) ∧
    (∀ md cert, uc.getClusterMetadata ns = .ok md → md.Certificate = none →
      uc.getClusterCertificate ctxName ns = .ok cert →
      fetchClusterMetadata (.ok uc) ctxName ns =
        .ok { md with Certificate := some cert }) ∧
    (∀ md e, uc.getClusterMetadata ns = .ok md → md.Certificate = none →
      uc.getClusterCertificate ctxName ns = .error e →
      fetchClusterMetadata (.ok uc) ctxName ns = .error e) := by
  intro uc ctxName ns
  refine ⟨fun e => rfl, ?_, ?_, ?_, ?_⟩
  · intro e h
    simp only [fetchClusterMetadata, h]
  · intro md c0 hmd hc
    simp only [fetchClusterMetadata, hmd, hc]
  · intro md cert hmd hc hcert
    simp only [fetchClusterMetadata, hmd, hc, hcert]
  · intro md e hmd hc hcert
    simp only [fetchClusterMetadata, hmd, hc, hcert]

/-- Witness for C7 at a concrete client whose metadata lacks a certificate:
the certificate fetched by the second call is merged into the result. -/
theorem c7_cluster_metadata_fetch_witness :
    fetchClusterMetadata
      (.ok { getClusterMetadata := fun _ =>
               .ok { Certificate := none, ServerName := "srv",
                     PipelineRunnerImage := "runner",
                     PipelineInstallerImage := "installer" }
             getClusterCertificate := fun _ _ => .ok [3, 4] }) "ctx" "ns" =
      .ok { Certificate := some [3, 4], ServerName := "srv",
            PipelineRunnerImage := "runner",
            PipelineInstallerImage := "installer" } :=
  (c7_cluster_metadata_fetch
    { getClusterMetadata := fun _ =>
        .ok { Certificate := none, ServerName := "srv",
              PipelineRunnerImage := "runner",
              PipelineInstallerImage := "installer" }
      getClusterCertificate := fun _ _ => .ok [3, 4] } "ctx" "ns").2.2.2.1
    { Certificate := none, ServerName := "srv",
      PipelineRunnerImage := "runner", PipelineInstallerImage := "installer" }
    [3, 4] rfl rfl rfl

/-- C1: when the builder's build operation fails, `destroy` classifies the
error in three exhaustive cases — a structured command error found on the
chain yields a user error wrapping its cause with the stage set to its
label; otherwise the stage is `"remote deploy"` and a user-facing error is
returned unchanged (no double-wrapping); any other error is wrapped
generically into a user error. -/
theorem c1_build_error_classification :
    ∀ (env : DestroyEnv) (opts : Options) (img : String) (sc : ClusterMetadata)
      (cwd tmpDir dockerfile : String) (err : GoError),
    env.metadataRes = .ok sc → env.cwdRes = .ok cwd →
    env.tmpDirRes = .ok tmpDir → env.dockerfileRes tmpDir = .ok dockerfile →
    env.chdirRes cwd = .ok () →
    env.buildRes (destroyBuildOptions sc cwd dockerfile env.base64Encode) = some err →
    (∀ stage cause, errorsAsCmd err = some (stage, cause) →
      (destroy env opts img).ret =
        some (.user (.errorf "error during development environment deployment" cause)) ∧
      (destroy env opts img).stage = some stage) ∧
    (errorsAsCmd err = none →
      (∀ u, errorsAsUser err = some u →
        (destroy env opts img).ret = some u ∧
        (destroy env opts img).stage = some "remote deploy") ∧
      (errorsAsUser err = none →
        (destroy env opts img).ret =
          some (.user (.errorf "error during destroy of the development environment" err)) ∧
        (destroy env opts img).stage = some "remote deploy")) := by
  intro env opts img sc cwd tmpDir dockerfile err hmeta hcwd htmp hdf hch hbuild
  refine ⟨?_, ?_⟩
  · intro stage cause hcmd
    simp [destroy, hmeta, hcwd, htmp, hdf, hch, hbuild, hcmd]
  · intro hcmd
    refine ⟨?_, ?_⟩
    · intro u huser
      simp [destroy, hmeta, hcwd, htmp, hdf, hch, hbuild, hcmd, huser]
    · intro huser
      simp [destroy, hmeta, hcwd, htmp, hdf, hch, hbuild, hcmd, huser]

/-- Witness for C1: a builder failure carrying the structured stage label
`"installer"` surfaces as a user error wrapping the original cause with the
reported stage `"installer"`. -/
theorem c1_build_error_classification_witness :
    (destroy
      ⟨.ok ⟨some [9], "sni", "runner", "inst"⟩, .ok "/wd", .ok "/tmp1",
        fun _ => .ok "/tmp1/deploy", fun _ => .ok (), fun _ => .ok (),
        fun _ => some (.cmd "installer" (.base "boom")), fun _ => "CERT"⟩
      ⟨"", "", "", false, false⟩ "img").ret =
      some (.user (.errorf "error during development environment deployment"
        (.base "boom"))) ∧
    (destroy
      ⟨.ok ⟨some [9], "sni", "runner", "inst"⟩, .ok "/wd", .ok "/tmp1",
        fun _ => .ok "/tmp1/deploy", fun _ => .ok (), fun _ => .ok (),
        fun _ => some (.cmd "installer" (.base "boom")), fun _ => "CERT"⟩
      ⟨"", "", "", false, false⟩ "img").stage = some "installer" :=
  (c1_build_error_classification
    ⟨.ok ⟨some [9], "sni", "runner", "inst"⟩, .ok "/wd", .ok "/tmp1",
      fun _ => .ok "/tmp1/deploy", fun _ => .ok (), fun _ => .ok (),
      fun _ => some (.cmd "installer" (.base "boom")), fun _ => "CERT"⟩
    ⟨"", "", "", false, false⟩ "img" ⟨some [9], "sni", "runner", "inst"⟩
    "/wd" "/tmp1" "/tmp1/deploy" (.cmd "installer" (.base "boom"))
    rfl rfl rfl rfl rfl rfl).1 "installer" (.base "boom") rfl

/-- C8: whenever the builder is invoked, `destroy` has first changed the
working directory back to the directory captured at the start of the run,
and the build request carries that original directory as its build-context
path together with the `"destroy"` output mode. -/
theorem c8_cwd_restored_before_build :
    ∀ (env : DestroyEnv) (opts : Options) (img : String) (sc : ClusterMetadata)
      (cwd tmpDir dockerfile : String),
    env.metadataRes = .ok sc → env.cwdRes = .ok cwd →
    env.tmpDirRes = .ok tmpDir → env.dockerfileRes tmpDir = .ok dockerfile →
    env.chdirRes cwd = .ok () →
    ∃ l1 l2, (destroy env opts img).trace =
        l1 ++ DestroyEvent.changeDir cwd :: l2 ∧
      DestroyEvent.buildInvoked
        (destroyBuildOptions sc cwd dockerfile env.base64Encode) ∈ l2 ∧
      (destroyBuildOptions sc cwd dockerfile env.base64Encode).Path = cwd ∧
      (destroyBuildOptions sc cwd dockerfile env.base64Encode).OutputMode =
        "destroy" := by
  intro env opts img sc cwd tmpDir dockerfile hmeta hcwd htmp hdf hch
  rcases hb : env.buildRes (destroyBuildOptions sc cwd dockerfile env.base64Encode)
    with _ | err
  · refine ⟨[.fetchMetadata, .getWorkingDir cwd, .createTempDir tmpDir,
      .createdDockerfile dockerfile],
      [.buildInvoked (destroyBuildOptions sc cwd dockerfile env.base64Encode),
        .setStage "done", .logEOF,
        .removedDockerfile dockerfile (!(env.removeRes dockerfile).isOk)],
      ?_, by simp, rfl, rfl⟩
    simp [destroy, hmeta, hcwd, htmp, hdf, hch, hb]
  · rcases hcmd : errorsAsCmd err with _ | ⟨stage, cause⟩
    · rcases hu : errorsAsUser err with _ | u
      · refine ⟨[.fetchMetadata, .getWorkingDir cwd, .createTempDir tmpDir,
          .createdDockerfile dockerfile],
          [.buildInvoked (destroyBuildOptions sc cwd dockerfile env.base64Encode),
            .setStage "remote deploy",
            .removedDockerfile dockerfile (!(env.removeRes dockerfile).isOk)],
          ?_, by simp, rfl, rfl⟩
        simp [destroy, hmeta, hcwd, htmp, hdf, hch, hb, hcmd, hu]
      · refine ⟨[.fetchMetadata, .getWorkingDir cwd, .createTempDir tmpDir,
          .createdDockerfile dockerfile],
          [.buildInvoked (destroyBuildOptions sc cwd dockerfile env.base64Encode),
            .setStage "remote deploy",
            .removedDockerfile dockerfile (!(env.removeRes dockerfile).isOk)],
          ?_, by simp, rfl, rfl⟩
        simp [destroy, hmeta, hcwd, htmp, hdf, hch, hb, hcmd, hu]
    · refine ⟨[.fetchMetadata, .getWorkingDir cwd, .createTempDir tmpDir,
        .createdDockerfile dockerfile],
        [.buildInvoked (destroyBuildOptions sc cwd dockerfile env.base64Encode),
          .setStage stage,
          .removedDockerfile dockerfile (!(env.removeRes dockerfile).isOk)],
        ?_, by simp, rfl, rfl⟩
      simp [destroy, hmeta, hcwd, htmp, hdf, hch, hb, hcmd]

/-- Witness for C8 at a concrete successful run: the trace changes directory
back to the captured `/wd` before invoking the builder with path `/wd` and
output mode `"destroy"`. -/
theorem c8_cwd_restored_before_build_witness :
    ∃ l1 l2,
      (destroy
        ⟨.ok ⟨none, "sni", "runner", "inst"⟩, .ok "/wd", .ok "/tmp1",
          fun _ => .ok "/tmp1/deploy", fun _ => .ok (), fun _ => .ok (),
          fun _ => none, fun _ => "CERT"⟩
        ⟨"", "", "", false, false⟩ "img").trace =
        l1 ++ DestroyEvent.changeDir "/wd" :: l2 ∧
      DestroyEvent.buildInvoked
        (destroyBuildOptions ⟨none, "sni", "runner", "inst"⟩ "/wd" "/tmp1/deploy"
          (fun _ => "CERT")) ∈ l2 ∧
      (destroyBuildOptions ⟨none, "sni", "runner", "inst"⟩ "/wd" "/tmp1/deploy"
        (fun _ => "CERT")).Path = "/wd" ∧
      (destroyBuildOptions ⟨none, "sni", "runner", "inst"⟩ "/wd" "/tmp1/deploy"
        (fun _ => "CERT")).OutputMode = "destroy" :=
  c8_cwd_restored_before_build
    ⟨.ok ⟨none, "sni", "runner", "inst"⟩, .ok "/wd", .ok "/tmp1",
      fun _ => .ok "/tmp1/deploy", fun _ => .ok (), fun _ => .ok (),
      fun _ => none, fun _ => "CERT"⟩
    ⟨"", "", "", false, false⟩ "img" ⟨none, "sni", "runner", "inst"⟩
    "/wd" "/tmp1" "/tmp1/deploy" rfl rfl rfl rfl rfl

/-- C9: `destroy`'s return value is independent of the outcome of the
deferred removal of the rendered manifest (a removal failure is only
logged); and on every run that rendered the manifest, the removal runs as
deferred cleanup regardless of the success or failure of the rest. -/
theorem c9_deferred_cleanup_best_effort :
    (∀ (env : DestroyEnv) (opts : Options) (img : String)
      (r r' : String → Except GoError Unit),
      (destroy { env with removeRes := r } opts img).ret =
        (destroy { env with removeRes := r' } opts img).ret) ∧
    (∀ (env : DestroyEnv) (opts : Options) (img : String) (sc : ClusterMetadata)
      (cwd tmpDir dockerfile : String),
      env.metadataRes = .ok sc → env.cwdRes = .ok cwd →
      env.tmpDirRes = .ok tmpDir → env.dockerfileRes tmpDir = .ok dockerfile →
      DestroyEvent.removedDockerfile dockerfile (!(env.removeRes dockerfile).isOk) ∈
        (destroy env opts img).trace) := by
  refine ⟨?_, ?_⟩
  · intro env opts img r r'
    rcases hm : env.metadataRes with e | sc
    · simp [destroy, hm]
    rcases hc : env.cwdRes with e | cwd
    · simp [destroy, hm, hc]
    rcases ht : env.tmpDirRes with e | tmpDir
    · simp [destroy, hm, hc, ht]
    rcases hd : env.dockerfileRes tmpDir with e | dockerfile
    · simp [destroy, hm, hc, ht, hd]
    rcases hch : env.chdirRes cwd with e | u
    · simp [destroy, hm, hc, ht, hd, hch]
    rcases hb : env.buildRes (destroyBuildOptions sc cwd dockerfile env.base64Encode)
      with _ | err
    · simp [destroy, hm, hc, ht, hd, hch, hb]
    rcases hcmd : errorsAsCmd err with _ | ⟨stage, cause⟩
    · rcases hu : errorsAsUser err with _ | uerr <;>
        simp [destroy, hm, hc, ht, hd, hch, hb, hcmd, hu]
    · simp [destroy, hm, hc, ht, hd, hch, hb, hcmd]
  · intro env opts img sc cwd tmpDir dockerfile hm hc ht hd
    rcases hch : env.chdirRes cwd with e | u
    · simp [destroy, hm, hc, ht, hd, hch]
    rcases hb : env.buildRes (destroyBuildOptions sc cwd dockerfile env.base64Encode)
      with _ | err
    · simp [destroy, hm, hc, ht, hd, hch, hb]
    rcases hcmd : errorsAsCmd err with _ | ⟨stage, cause⟩
    · rcases hu : errorsAsUser err with _ | uerr <;>
        simp [destroy, hm, hc, ht, hd, hch, hb, hcmd, hu]
    · simp [destroy, hm, hc, ht, hd, hch, hb, hcmd]

/-- Witness for C9: a run whose deferred removal fails returns the same
(successful) result as one whose removal succeeds, and its trace records
the attempted removal. -/
theorem c9_deferred_cleanup_best_effort_witness :
    ((destroy
      { (⟨.ok ⟨none, "sni", "runner", "inst"⟩, .ok "/wd", .ok "/tmp1",
          fun _ => .ok "/tmp1/deploy", fun _ => .ok (), fun _ => .ok (),
          fun _ => none, fun _ => "CERT"⟩ : DestroyEnv) with
        removeRes := fun _ => .error (.base "remove failed") }
      ⟨"", "", "", false, false⟩ "img").ret =
     (destroy
      { (⟨.ok ⟨none, "sni", "runner", "inst"⟩, .ok "/wd", .ok "/tmp1",
          fun _ => .ok "/tmp1/deploy", fun _ => .ok (), fun _ => .ok (),
          fun _ => none, fun _ => "CERT"⟩ : DestroyEnv) with
        removeRes := fun _ => .ok () }
      ⟨"", "", "", false, false⟩ "img").ret) ∧
    DestroyEvent.removedDockerfile "/tmp1/deploy"
        (!((fun (_ : String) => (.error (.base "remove failed") : Except GoError Unit))
            "/tmp1/deploy").isOk) ∈
      (destroy
        ⟨.ok ⟨none, "sni", "runner", "inst"⟩, .ok "/wd", .ok "/tmp1",
          fun _ => .ok "/tmp1/deploy", fun _ => .ok (),
          fun _ => .error (.base "remove failed"), fun _ => none,
          fun _ => "CERT"⟩
        ⟨"", "", "", false, false⟩ "img").trace :=
  ⟨c9_deferred_cleanup_best_effort.1
    ⟨.ok ⟨none, "sni", "runner", "inst"⟩, .ok "/wd", .ok "/tmp1",
      fun _ => .ok "/tmp1/deploy", fun _ => .ok (), fun _ => .ok (),
      fun _ => none, fun _ => "CERT"⟩
    ⟨"", "", "", false, false⟩ "img"
    (fun _ => .error (.base "remove failed")) (fun _ => .ok ()),
   c9_deferred_cleanup_best_effort.2
    ⟨.ok ⟨none, "sni", "runner", "inst"⟩, .ok "/wd", .ok "/tmp1",
      fun _ => .ok "/tmp1/deploy", fun _ => .ok (),
      fun _ => .error (.base "remove failed"), fun _ => none, fun _ => "CERT"⟩
    ⟨"", "", "", false, false⟩ "img" ⟨none, "sni", "runner", "inst"⟩
    "/wd" "/tmp1" "/tmp1/deploy" rfl rfl rfl rfl⟩

/-- C5: in the manifest rendered by `createDockerfile` (whose interpolated
values are newline-free), each of the two optional bindings — action name
and git commit — has exactly one ENV line when its value is non-empty and
none when it is empty, while the required bindings (context, namespace,
token, and the remote-execution marker set to `true`) are always
emitted. -/
theorem c5_optional_and_required_env_bindings :
    ∀ (vs ri cn cns tk an gc di ii : String) (opts : Options) (entropy : Nat),
    noNL vs → noNL ri → noNL cn → noNL cns → noNL tk → noNL an → noNL gc →
    noNL di → noNL ii → noNL opts.Name → noNL opts.Namespace →
    noNL opts.ManifestPathFlag →
    (envLineCount
        (renderDockerfile (destroyDockerfileProps vs ri cn cns tk an gc di ii opts entropy))
        OktetoActionNameEnvVar = if an = "" then 0 else 1) ∧
    (envLineCount
        (renderDockerfile (destroyDockerfileProps vs ri cn cns tk an gc di ii opts entropy))
        OktetoGitCommitEnvVar = if gc = "" then 0 else 1) ∧
    hasLine
      (renderDockerfile (destroyDockerfileProps vs ri cn cns tk an gc di ii opts entropy))
      ("ENV OKTETO_CONTEXT " ++ cn) ∧
    hasLine
      (renderDockerfile (destroyDockerfileProps vs ri cn cns tk an gc di ii opts entropy))
      ("ENV OKTETO_NAMESPACE " ++ cns) ∧
    hasLine
      (renderDockerfile (destroyDockerfileProps vs ri cn cns tk an gc di ii opts entropy))
      ("ENV OKTETO_TOKEN " ++ tk) ∧
    hasLine
      (renderDockerfile (destroyDockerfileProps vs ri cn cns tk an gc di ii opts entropy))
      "ENV OKTETO_DEPLOY_REMOTE true" := by
  intro vs ri cn cns tk an gc di ii opts entropy hvs hri hcn hcns htk han hgc
    hdi hii h1 h2 h3
  exact renderDockerfile_env_lines
    (destroyDockerfileProps vs ri cn cns tk an gc di ii opts entropy)
    rfl rfl rfl rfl rfl rfl rfl
    (noNL_getOktetoCLIVersion hri hvs) hii hdi hcns hcn htk han hgc
    (noNL_repr_lt1000 (randInt1000 entropy) (Nat.mod_lt entropy (by decide)))
    (noNL_joinSpace (noNL_mem_getDestroyFlags h1 h2 h3))

/-- Witness for C5 at concrete values: with a non-empty action name and an
empty git commit, the rendered manifest has exactly one
`ENV OKTETO_ACTION_NAME` line, no `ENV OKTETO_GIT_COMMIT` line, and the
required context binding line. -/
theorem c5_optional_and_required_env_bindings_witness :
    envLineCount
        (renderDockerfile (destroyDockerfileProps "1.2.3" "" "ctx.example" "ns1"
          "tok" "deploy-action" "" "img" "inst" ⟨"n", "ns", "", true, false⟩ 5))
        OktetoActionNameEnvVar = 1 ∧
    envLineCount
        (renderDockerfile (destroyDockerfileProps "1.2.3" "" "ctx.example" "ns1"
          "tok" "deploy-action" "" "img" "inst" ⟨"n", "ns", "", true, false⟩ 5))
        OktetoGitCommitEnvVar = 0 ∧
    hasLine
      (renderDockerfile (destroyDockerfileProps "1.2.3" "" "ctx.example" "ns1"
        "tok" "deploy-action" "" "img" "inst" ⟨"n", "ns", "", true, false⟩ 5))
      ("ENV OKTETO_CONTEXT " ++ "ctx.example") := by
  have h := c5_optional_and_required_env_bindings "1.2.3" "" "ctx.example" "ns1"
    "tok" "deploy-action" "" "img" "inst" ⟨"n", "ns", "", true, false⟩ 5
    (by decide) (by decide) (by decide) (by decide) (by decide) (by decide)
    (by decide) (by decide) (by decide) (by decide) (by decide) (by decide)
  exact ⟨by simpa using h.1, by simpa using h.2.1, h.2.2.1⟩

/-- C10 counterexample: the claim says every namespace or manifest-path
value containing a space splits across multiple shell words; but for the
namespace value `"a "` (whose space is trailing) the joined flag string
`--namespace a ` yields only the single word `"a"` for the value, not
multiple. -/
theorem c10_counterexample :
    ' ' ∈ ("a " : String).data ∧
    shellWords (joinSpace (getDestroyFlags
      { Name := "", Namespace := "a ", ManifestPathFlag := "",
        DestroyVolumes := false, ForceDestroy := false })) =
      ["--namespace", "a"] ∧
    ((shellWords (joinSpace (getDestroyFlags
      { Name := "", Namespace := "a ", ManifestPathFlag := "",
        DestroyVolumes := false, ForceDestroy := false }))).filter
      (fun w => w ≠ "--namespace")).length = 1 := by
  refine ⟨by decide, by decide, by decide⟩

/-- C10 (amended): only the name value is wrapped in double quotes
(`--name "<value>"`); the namespace and manifest-path values are
interpolated verbatim without quoting, so a namespace (or manifest-path)
value with an interior space splits across multiple shell words in the
joined flag string — while the quoted name value survives as one word —
and a space-padded value may instead lose its padding rather than split. -/
theorem c10_quoting_and_word_splitting :
    (∀ opts : Options, opts.Name ≠ "" →
      ("--name \"" ++ opts.Name ++ "\"") ∈ getDestroyFlags opts) ∧
    (∀ opts : Options, opts.Namespace ≠ "" →
      ("--namespace " ++ opts.Namespace) ∈ getDestroyFlags opts) ∧
    (∀ opts : Options, opts.ManifestPathFlag ≠ "" →
      ("--file " ++ opts.ManifestPathFlag) ∈ getDestroyFlags opts) ∧
    (∀ name p1 p2 : String, name ≠ "" → p1 ≠ "" → p2 ≠ "" →
      '"' ∉ name.data → '"' ∉ p1.data → ' ' ∉ p1.data →
      '"' ∉ p2.data → ' ' ∉ p2.data →
      shellWords (joinSpace (getDestroyFlags
        { Name := name, Namespace := p1 ++ " " ++ p2, ManifestPathFlag := "",
          DestroyVolumes := false, ForceDestroy := false })) =
        ["--name", name, "--namespace", p1, p2]) := by
  refine ⟨?_, ?_, ?_, ?_⟩
  · intro opts h
    rw [getDestroyFlags_eq]
    simp [h]
  · intro opts h
    rw [getDestroyFlags_eq]
    simp [h]
  · intro opts h
    rw [getDestroyFlags_eq]
    simp [h]
  · intro name p1 p2 hn h1 h2 hnq h1q h1s h2q h2s
    have hflags : getDestroyFlags ⟨name, p1 ++ " " ++ p2, "", false, false⟩ =
        ["--name \"" ++ name ++ "\"", "--namespace " ++ (p1 ++ " " ++ p2)] := by
      rw [getDestroyFlags_eq]
      have hne : p1 ++ " " ++ p2 ≠ "" := by
        intro hcon
        have : ' ' ∈ (p1 ++ " " ++ p2).data := by
          simp [String.data_append]
        rw [hcon] at this
        simp at this
      simp [hn, hne]
    rw [hflags]
    have hjoin : joinSpace ["--name \"" ++ name ++ "\"",
        "--namespace " ++ (p1 ++ " " ++ p2)] =
        ("--name \"" ++ name ++ "\"") ++ " " ++
          ("--namespace " ++ (p1 ++ " " ++ p2)) := by
      simp [joinSpace]
    rw [hjoin]
    unfold shellWords
    have hmq1 : ∀ r q, markQuoted (name.data ++ r) q =
        name.data.map (fun c => (c, q)) ++ markQuoted r q :=
      fun r q => markQuoted_append_noquote r q hnq
    have hmq2 : ∀ r q, markQuoted (p1.data ++ r) q =
        p1.data.map (fun c => (c, q)) ++ markQuoted r q :=
      fun r q => markQuoted_append_noquote r q h1q
    have hmq3 : ∀ q, markQuoted p2.data q = p2.data.map (fun c => (c, q)) := by
      intro q
      have := markQuoted_append_noquote [] q h2q (a := p2.data)
      simpa [markQuoted] using this
    have hM : markQuoted (("--name \"" ++ name ++ "\"") ++ " " ++
        ("--namespace " ++ (p1 ++ " " ++ p2))).data false =
        joinSep [[('-', false), ('-', false), ('n', false), ('a', false),
            ('m', false), ('e', false)],
          name.data.map (fun c => (c, true)),
          [('-', false), ('-', false), ('n', false), ('a', false), ('m', false),
            ('e', false), ('s', false), ('p', false), ('a', false), ('c', false),
            ('e', false)],
          p1.data.map (fun c => (c, false)),
          p2.data.map (fun c => (c, false))] := by
      simp [String.data_append, markQuoted, hmq1, hmq2, hmq3, joinSep,
        List.append_assoc]
    have hfst : ∀ (q : Bool) (l : List Char),
        (l.map (fun c => (c, q))).map Prod.fst = l := by
      intro q l
      induction l with
      | nil => rfl
      | cons a t iht => simp [iht]
    have hdatane : ∀ s : String, s ≠ "" → s.data ≠ [] := by
      intro s hs hd
      apply hs
      cases s with
      | mk d =>
        simp only at hd
        subst hd
        rfl
    have hchunkq : ∀ (l : List Char), ∀ a ∈ l.map (fun c => (c, true)),
        isSpaceTok a = false := by
      intro l a ha
      rcases List.mem_map.mp ha with ⟨c, _, rfl⟩
      simp [isSpaceTok]
    have hchunkf : ∀ (l : List Char), ' ' ∉ l →
        ∀ a ∈ l.map (fun c => (c, false)), isSpaceTok a = false := by
      intro l hl a ha
      rcases List.mem_map.mp ha with ⟨c, hc, rfl⟩
      have hcne : c ≠ ' ' := fun he => hl (he ▸ hc)
      simp [isSpaceTok, hcne]
    rw [hM, wordsOfMarked_joinSep]
    · simp only [List.map_cons, List.map_nil, hfst]
    · intro c hc
      simp only [List.mem_cons, List.not_mem_nil, or_false] at hc
      rcases hc with rfl | rfl | rfl | rfl | rfl
      · exact ⟨by decide, by decide⟩
      · exact ⟨by simpa using (hdatane name hn), hchunkq name.data⟩
      · exact ⟨by decide, by decide⟩
      · exact ⟨by simpa using (hdatane p1 h1), hchunkf p1.data h1s⟩
      · exact ⟨by simpa using (hdatane p2 h2), hchunkf p2.data h2s⟩

/-- Witness for C10 (amended) at concrete values: the quoted name survives
as the single word `myenv`, while the namespace value `ns one` (interior
space, unquoted) splits into the two words `ns` and `one`. -/
theorem c10_quoting_and_word_splitting_witness :
    ("--name \"myenv\"" ∈ getDestroyFlags
      { Name := "myenv", Namespace := "ns one", ManifestPathFlag := "",
        DestroyVolumes := false, ForceDestroy := false }) ∧
    shellWords (joinSpace (getDestroyFlags
      { Name := "myenv", Namespace := "ns" ++ " " ++ "one",
        ManifestPathFlag := "", DestroyVolumes := false,
        ForceDestroy := false })) =
      ["--name", "myenv", "--namespace", "ns", "one"] :=
  ⟨by
    have h := c10_quoting_and_word_splitting.1
      { Name := "myenv", Namespace := "ns one", ManifestPathFlag := "",
        DestroyVolumes := false, ForceDestroy := false } (by decide)
    simpa using h,
   c10_quoting_and_word_splitting.2.2.2 "myenv" "ns" "one" (by decide)
    (by decide) (by decide) (by decide) (by decide) (by decide) (by decide)
    (by decide)⟩

end OktetoDestroy
